import Mathlib

/-!
Verification of the capability-composition and energy-metering layer of a
smart-home device library.

Part 1 embeds `kasa/smart/modules/brightness.py` (the `Brightness` smart
module): its `brightness` property and `set_brightness` coroutine, with the
delegation to an active light-effect module and the Python-level argument
validation (`isinstance(value, int)` accepts `bool`, a subtype of `int`).

Part 2 embeds the energy statistics engine (status-record unit access,
daily/monthly historical aggregation, consumption for the current day).
-/

/-- A Python value passed as the `brightness` argument of
`Brightness.set_brightness`.  Only the distinctions the validation code can
observe are modelled: `int`, `bool` (a subtype of `int` in Python), `float`,
`str` and `None`. -/
inductive PyVal where
  | int (n : Int)
  | bool (b : Bool)
  | float (q : Rat)
  | str (s : String)
  | none
deriving DecidableEq

/-- Python `isinstance(v, int)`: true for `int` and for `bool` (a subtype of
`int`), false for every other type. -/
def PyVal.isInstInt : PyVal → Bool
  | .int _ => true
  | .bool _ => true
  | _ => false

/-- The integer a `PyVal` denotes in an arithmetic comparison; `bool`
coerces to 0/1.  Only consulted under the `isinstance(v, int)` guard
(Python's short-circuit `or` never compares a non-int). -/
def PyVal.toInt : PyVal → Int
  | .int n => n
  | .bool b => if b then 1 else 0
  | _ => 0

/-- Python `str(v)` as used by the error f-string of `set_brightness`. -/
def PyVal.pyStr : PyVal → String
  | .int n => toString n
  | .bool b => if b then "True" else "False"
  | .float q => toString q
  | .str s => s
  | .none => "None"

/-- `BRIGHTNESS_MIN` from `brightness.py`. -/
def BRIGHTNESS_MIN : Int := 0

/-- `BRIGHTNESS_MAX` from `brightness.py`. -/
def BRIGHTNESS_MAX : Int := 100

/-- The observable state of a light-effect module
(`Module.SmartLightEffect`): whether an effect is currently active and the
brightness it reports. -/
structure LightEffect where
  is_active : Bool
  brightness : Int
deriving DecidableEq

/-- The `Brightness` module's view of the cached raw snapshot
(`self.data`); the module reads only its `"brightness"` field. -/
structure BrightnessData where
  brightness : Int
deriving DecidableEq

/-- The device state visible to the `Brightness` module:
`self._device.modules.get(Module.SmartLightEffect)` (an optional
light-effect module) and the cached raw data. -/
structure DeviceState where
  lightEffect : Option LightEffect
  data : BrightnessData
deriving DecidableEq

/-- The outcome of a `set_brightness` call: the `ValueError` raised before
any remote call, or the single remote operation issued
(`device.turn_off()`, `light_effect.set_brightness(b)`, or
`call("set_device_info", \x7b"brightness": b\x7d)`). -/
inductive SetBrightnessResult where
  | error (msg : String)
  | turnOff
  | effectSetBrightness (brightness : Int)
  | setDeviceInfo (brightness : Int)
deriving DecidableEq

/-- Whether the outcome is the raised `ValueError`. -/
def SetBrightnessResult.isError : SetBrightnessResult → Bool
  | .error _ => true
  | _ => false

/-- The message of the `ValueError` raised on invalid input:
`f"Invalid brightness value: \x7bbrightness\x7d (valid range:
\x7bBRIGHTNESS_MIN\x7d-\x7bBRIGHTNESS_MAX\x7d%)"`. -/
def invalidBrightnessMsg (v : PyVal) : String :=
  "Invalid brightness value: " ++ v.pyStr ++ " (valid range: " ++
    toString BRIGHTNESS_MIN ++ "-" ++ toString BRIGHTNESS_MAX ++ "%)"

/-- `Brightness.set_brightness` from `brightness.py`:
validate `isinstance(brightness, int)` and
`BRIGHTNESS_MIN <= brightness <= BRIGHTNESS_MAX` (raise `ValueError`
otherwise, before any remote call); on 0 call `device.turn_off()`; if a
light-effect module is registered and active delegate to its
`set_brightness`; otherwise issue `call("set_device_info", ...)`.
The keyword-only `transition` argument is accepted and ignored. -/
def Brightness.set_brightness (dev : DeviceState) (brightness : PyVal)
    (transition : Option Int) : SetBrightnessResult :=
  if ¬ (brightness.isInstInt = true ∧
        BRIGHTNESS_MIN ≤ brightness.toInt ∧ brightness.toInt ≤ BRIGHTNESS_MAX) then
    .error (invalidBrightnessMsg brightness)
  else if brightness.toInt = 0 then
    .turnOff
  else
    match dev.lightEffect with
    | some le =>
        if le.is_active then .effectSetBrightness brightness.toInt
        else .setDeviceInfo brightness.toInt
    | Option.none => .setDeviceInfo brightness.toInt

/-- The `Brightness.brightness` property from `brightness.py`: if a
light-effect module is registered and is active, return its brightness;
otherwise return `self.data["brightness"]`. -/
def Brightness.brightness (dev : DeviceState) : Int :=
  match dev.lightEffect with
  | some le => if le.is_active then le.brightness else dev.data.brightness
  | Option.none => dev.data.brightness

/-!
Part 2: the energy statistics engine.  The engine's implementation
(`EmeterStatus` and the `Emeter` historical-statistics module) is not part
of the repository snapshot — only its tests are — so the definitions below
are modelled from the specification's access and aggregation contracts.
-/

/-- A raw energy reading: the key-value record returned by the device,
values taken as exact rationals. -/
def EmeterRaw : Type := List (String × Rat)

/-- Dictionary lookup in a raw reading. -/
def lookupRaw (raw : EmeterRaw) (k : String) : Option Rat :=
  (List.find? (fun p => p.1 = k) raw).map Prod.snd

/-- The canonical/milli unit pairs of the status record:
volt/millivolt, ampere/milliampere, watt/milliwatt, kilowatt-hour/watt-hour. -/
def unitPairs : List (String × String) :=
  [("voltage", "voltage_mv"), ("current", "current_ma"),
   ("power", "power_mw"), ("total", "total_wh")]

/-- The milli-unit key paired with a canonical key, if `k` is canonical. -/
def milliOf (k : String) : Option String :=
  (List.find? (fun p => p.1 = k) unitPairs).map Prod.snd

/-- The canonical key paired with a milli-unit key, if `k` is a milli key. -/
def canonicalOf (k : String) : Option String :=
  (List.find? (fun p => p.2 = k) unitPairs).map Prod.fst

/-- Whether the status-record schema recognizes key `k`: a member of a
canonical/milli unit pair, or the optional `slot_id`. -/
def recognizedKey (k : String) : Bool :=
  (milliOf k).isSome || (canonicalOf k).isSome || k = "slot_id"

/-- Modelled from the spec: the status-record access contract of the
Energy Statistics Engine (`EmeterStatus.__getitem__`; the engine's source
is absent from the snapshot, only its tests are present).  Requesting a
known key returns it directly if present; if absent but its paired unit is
present, derive by exact multiplication/division by 1000 (canonical→milli
multiplies, milli→canonical divides); a recognized key absent together
with its pair yields the explicit absent value `None`; an unrecognized key
fails with a key error naming the offending key. -/
def EmeterStatus.getItem (raw : EmeterRaw) (key : String) :
    Except String (Option Rat) :=
  match milliOf key with
  | some m =>
      match lookupRaw raw key with
      | some v => .ok (some v)
      | Option.none =>
          match lookupRaw raw m with
          | some mv => .ok (some (mv / 1000))
          | Option.none => .ok Option.none
  | Option.none =>
      match canonicalOf key with
      | some c =>
          match lookupRaw raw key with
          | some v => .ok (some v)
          | Option.none =>
              match lookupRaw raw c with
              | some cv => .ok (some (cv * 1000))
              | Option.none => .ok Option.none
      | Option.none =>
          if key = "slot_id" then .ok (lookupRaw raw key)
          else .error ("unknown field: " ++ key)

deriving instance DecidableEq for Except

/-- A well-formed raw reading carries at most one member of each unit
pair (the spec guarantees exactly one per device family, or neither when
the sensor is absent). -/
def pairsDisjoint (raw : EmeterRaw) : Prop :=
  ∀ p ∈ unitPairs, lookupRaw raw p.1 = Option.none ∨ lookupRaw raw p.2 = Option.none

instance (raw : EmeterRaw) : Decidable (pairsDisjoint raw) := by
  unfold pairsDisjoint; infer_instance

/-- Key `k` and its paired unit (when it has one) are both absent from the
raw reading: the "recognized but not available on this device" case. -/
def absentWithPair (raw : EmeterRaw) (k : String) : Prop :=
  lookupRaw raw k = Option.none ∧
    (∀ p ∈ (milliOf k).toList, lookupRaw raw p = Option.none) ∧
    (∀ p ∈ (canonicalOf k).toList, lookupRaw raw p = Option.none)

instance (raw : EmeterRaw) (k : String) : Decidable (absentWithPair raw k) := by
  unfold absentWithPair; infer_instance

/-- The raw reading of the test's `regular` status record. -/
def regularRaw : EmeterRaw :=
  [("err_code", 0), ("power_mw", 0), ("total_wh", 13), ("current_ma", 123)]

/-- The raw reading of the test's `missing_current` status record. -/
def missingCurrentRaw : EmeterRaw :=
  [("err_code", 0), ("power_mw", 0), ("total_wh", 13)]

/-- A retained historical daily entry: `\x7bday, month, year, energy_wh\x7d`
with the energy in the milli base unit (watt-hours). -/
structure DayEntry where
  day : Nat
  month : Nat
  year : Nat
  energy_wh : Rat
deriving DecidableEq

/-- A retained historical monthly entry: `\x7bmonth, year, energy_wh\x7d`. -/
structure MonthEntry where
  month : Nat
  year : Nat
  energy_wh : Rat
deriving DecidableEq

/-- A calendar date, as far as the statistics engine consults it. -/
structure Date where
  day : Nat
  month : Nat
  year : Nat
deriving DecidableEq

/-- Modelled from the spec: `get_daily_stats(year, month, kwh)` of the
`Emeter` module (source absent from the snapshot).  Filter the retained
daily entries to the given year and month; build the day-of-month →
energy-value mapping, dividing the stored milli (Wh) value by 1000 when
`kwh` is true and reporting it unscaled otherwise; an empty result for an
uncovered year/month is valid, not an error. -/
def get_daily_stats (entries : List DayEntry) (year month : Nat)
    (kwh : Bool) : List (Nat × Rat) :=
  (entries.filter (fun e => e.year == year && e.month == month)).map
    (fun e => (e.day, if kwh then e.energy_wh / 1000 else e.energy_wh))

/-- Modelled from the spec: `get_monthly_stats(year, kwh)` of the `Emeter`
module — identical aggregation keyed by month-of-year over the retained
monthly totals list, with the same empty-result and unit-scaling rules. -/
def get_monthly_stats (entries : List MonthEntry) (year : Nat)
    (kwh : Bool) : List (Nat × Rat) :=
  (entries.filter (fun e => e.year == year)).map
    (fun e => (e.month, if kwh then e.energy_wh / 1000 else e.energy_wh))

/-- Lookup in a calendar→value mapping built by in-order insertion: a later
binding for the same key overwrites an earlier one (Python dict
semantics). -/
def dictGet (l : List (Nat × Rat)) (k : Nat) : Option Rat :=
  l.foldl (fun acc p => if p.1 = k then some p.2 else acc) Option.none

/-- Modelled from the spec: `consumption_today` of the `Emeter` module —
look up the current day in the kWh daily statistics of the current year
and month; when the refreshed list has no entry for today the result is
the absent value (no entry is fabricated). -/
def consumption_today (entries : List DayEntry) (today : Date) : Option Rat :=
  dictGet (get_daily_stats entries today.year today.month true) today.day

/-!
Theorems.
-/

/-- C1: for every integer value in [0, 100], `set_brightness` dispatches
exactly as follows: on 0 it invokes the device's power-off operation and
issues no brightness write; otherwise with a registered, active
light-effect module it delegates the write to that module's
`set_brightness`; otherwise it issues the module's own `set_device_info`
remote call with the new brightness value. -/
theorem set_brightness_dispatch (dev : DeviceState) (v : Int) (t : Option Int)
    (h0 : 0 ≤ v) (h1 : v ≤ 100) :
    (v = 0 → Brightness.set_brightness dev (.int v) t = .turnOff) ∧
    (v ≠ 0 → ∀ le, dev.lightEffect = some le → le.is_active = true →
      Brightness.set_brightness dev (.int v) t = .effectSetBrightness v) ∧
    (v ≠ 0 →
      (dev.lightEffect = Option.none ∨
        ∃ le, dev.lightEffect = some le ∧ le.is_active = false) →
      Brightness.set_brightness dev (.int v) t = .setDeviceInfo v) := by
  refine ⟨fun hv => ?_, fun hv le hle hact => ?_, fun hv hcase => ?_⟩
  · simp [Brightness.set_brightness, PyVal.isInstInt, PyVal.toInt,
      BRIGHTNESS_MIN, BRIGHTNESS_MAX, h0, h1, hv]
  · simp [Brightness.set_brightness, PyVal.isInstInt, PyVal.toInt,
      BRIGHTNESS_MIN, BRIGHTNESS_MAX, h0, h1, hv, hle, hact]
  · rcases hcase with hnone | ⟨le, hle, hact⟩ <;>
      simp [Brightness.set_brightness, PyVal.isInstInt, PyVal.toInt,
        BRIGHTNESS_MIN, BRIGHTNESS_MAX, h0, h1, hv, *]

/-- Witness for C1: the three dispatch branches at concrete inputs. -/
theorem set_brightness_dispatch_witness :
    Brightness.set_brightness ⟨Option.none, ⟨10⟩⟩ (.int 0) Option.none
      = .turnOff ∧
    Brightness.set_brightness ⟨some ⟨true, 5⟩, ⟨10⟩⟩ (.int 40) (some 2)
      = .effectSetBrightness 40 ∧
    Brightness.set_brightness ⟨some ⟨false, 5⟩, ⟨10⟩⟩ (.int 40) Option.none
      = .setDeviceInfo 40 :=
  ⟨(set_brightness_dispatch ⟨Option.none, ⟨10⟩⟩ 0 Option.none (by decide)
      (by decide)).1 rfl,
   (set_brightness_dispatch ⟨some ⟨true, 5⟩, ⟨10⟩⟩ 40 (some 2) (by decide)
      (by decide)).2.1 (by decide) ⟨true, 5⟩ rfl rfl,
   (set_brightness_dispatch ⟨some ⟨false, 5⟩, ⟨10⟩⟩ 40 Option.none (by decide)
      (by decide)).2.2 (by decide) (Or.inr ⟨⟨false, 5⟩, rfl, rfl⟩)⟩

/-- C2: for every input that is not an integer in [0, 100], `set_brightness`
fails with the invalid-value error naming the offending value and the range
0–100, and issues no remote call of any kind (the outcome is the raised
error, not a power-off, light-effect or device-info operation). -/
theorem set_brightness_invalid (dev : DeviceState) (v : PyVal) (t : Option Int)
    (h : ¬ (v.isInstInt = true ∧ 0 ≤ v.toInt ∧ v.toInt ≤ 100)) :
    Brightness.set_brightness dev v t = .error (invalidBrightnessMsg v) ∧
    invalidBrightnessMsg v =
      "Invalid brightness value: " ++ v.pyStr ++ " (valid range: 0-100%)" := by
  constructor
  · have h' : ¬ (v.isInstInt = true ∧
        BRIGHTNESS_MIN ≤ v.toInt ∧ v.toInt ≤ BRIGHTNESS_MAX) := by
      simpa [BRIGHTNESS_MIN, BRIGHTNESS_MAX] using h
    simp [Brightness.set_brightness, h']
  · have hmin : toString BRIGHTNESS_MIN = "0" := rfl
    have hmax : toString BRIGHTNESS_MAX = "100" := rfl
    rw [invalidBrightnessMsg, hmin, hmax]
    simp [String.append_assoc]

/-- Witness for C2: a float, a string, and the out-of-range integers -1 and
101 are all rejected with the named error and no remote call. -/
theorem set_brightness_invalid_witness :
    Brightness.set_brightness ⟨Option.none, ⟨10⟩⟩ (.int 101) Option.none
      = .error (invalidBrightnessMsg (.int 101)) ∧
    Brightness.set_brightness ⟨Option.none, ⟨10⟩⟩ (.int (-1)) Option.none
      = .error (invalidBrightnessMsg (.int (-1))) ∧
    Brightness.set_brightness ⟨Option.none, ⟨10⟩⟩ (.str "50") Option.none
      = .error (invalidBrightnessMsg (.str "50")) :=
  ⟨(set_brightness_invalid ⟨Option.none, ⟨10⟩⟩ (.int 101) Option.none
      (by decide)).1,
   (set_brightness_invalid ⟨Option.none, ⟨10⟩⟩ (.int (-1)) Option.none
      (by decide)).1,
   (set_brightness_invalid ⟨Option.none, ⟨10⟩⟩ (.str "50") Option.none
      (by decide)).1⟩

/-- C3: reading the `brightness` property returns the light-effect module's
brightness when such a module is registered and active, and the module's
own cached `data["brightness"]` field in every other case. -/
theorem brightness_read_delegation (dev : DeviceState) :
    (∀ le, dev.lightEffect = some le → le.is_active = true →
      Brightness.brightness dev = le.brightness) ∧
    ((dev.lightEffect = Option.none ∨
        ∃ le, dev.lightEffect = some le ∧ le.is_active = false) →
      Brightness.brightness dev = dev.data.brightness) := by
  refine ⟨fun le hle hact => ?_, fun hcase => ?_⟩
  · simp [Brightness.brightness, hle, hact]
  · rcases hcase with hnone | ⟨le, hle, hact⟩ <;>
      simp [Brightness.brightness, *]

/-- Witness for C3: active effect wins; no effect, and inactive effect,
fall back to the cached field. -/
theorem brightness_read_delegation_witness :
    Brightness.brightness ⟨some ⟨true, 42⟩, ⟨7⟩⟩ = 42 ∧
    Brightness.brightness ⟨Option.none, ⟨7⟩⟩ = 7 ∧
    Brightness.brightness ⟨some ⟨false, 42⟩, ⟨7⟩⟩ = 7 :=
  ⟨(brightness_read_delegation ⟨some ⟨true, 42⟩, ⟨7⟩⟩).1 ⟨true, 42⟩ rfl rfl,
   (brightness_read_delegation ⟨Option.none, ⟨7⟩⟩).2 (Or.inl rfl),
   (brightness_read_delegation ⟨some ⟨false, 42⟩, ⟨7⟩⟩).2
     (Or.inr ⟨⟨false, 42⟩, rfl, rfl⟩)⟩

/-- C9: for every valid brightness value, any two values of the ignored
`transition` argument give the same outcome, and the outcome is never the
validation error — `transition` has no effect and causes no failure. -/
theorem set_brightness_transition_noop (dev : DeviceState) (v : PyVal)
    (t1 t2 : Option Int)
    (h : v.isInstInt = true ∧ 0 ≤ v.toInt ∧ v.toInt ≤ 100) :
    Brightness.set_brightness dev v t1 = Brightness.set_brightness dev v t2 ∧
    (Brightness.set_brightness dev v t1).isError = false := by
  refine ⟨rfl, ?_⟩
  have hg : v.isInstInt = true ∧
      BRIGHTNESS_MIN ≤ v.toInt ∧ v.toInt ≤ BRIGHTNESS_MAX := by
    simpa [BRIGHTNESS_MIN, BRIGHTNESS_MAX] using h
  cases hle : dev.lightEffect with
  | none =>
      simp only [Brightness.set_brightness, hle]
      rw [if_neg (not_not_intro hg)]
      split <;> simp [SetBrightnessResult.isError]
  | some le =>
      simp only [Brightness.set_brightness, hle]
      rw [if_neg (not_not_intro hg)]
      split <;> (try split) <;> simp [SetBrightnessResult.isError]

/-- Witness for C9: brightness 50 with `transition=None` and
`transition=5` give the same non-error outcome. -/
theorem set_brightness_transition_noop_witness :
    Brightness.set_brightness ⟨Option.none, ⟨10⟩⟩ (.int 50) Option.none
      = Brightness.set_brightness ⟨Option.none, ⟨10⟩⟩ (.int 50) (some 5) ∧
    (Brightness.set_brightness ⟨Option.none, ⟨10⟩⟩ (.int 50)
      Option.none).isError = false :=
  set_brightness_transition_noop ⟨Option.none, ⟨10⟩⟩ (.int 50) Option.none
    (some 5) (by decide)

/-- C10: Python booleans pass the `isinstance(value, int)` validation
(`bool` is a subtype of `int`): `set_brightness(False)` takes the power-off
path on every device state, and `set_brightness(True)` issues a brightness
write of 1 (to the active light-effect module when one is active, through
`set_device_info` otherwise). -/
theorem set_brightness_bool_accepted (dev : DeviceState) (t : Option Int) :
    Brightness.set_brightness dev (.bool false) t = .turnOff ∧
    (Brightness.set_brightness dev (.bool true) t = .effectSetBrightness 1 ∨
     Brightness.set_brightness dev (.bool true) t = .setDeviceInfo 1) := by
  constructor
  · simp [Brightness.set_brightness, PyVal.isInstInt, PyVal.toInt,
      BRIGHTNESS_MIN, BRIGHTNESS_MAX]
  · cases hle : dev.lightEffect with
    | none =>
        right
        simp [Brightness.set_brightness, PyVal.isInstInt, PyVal.toInt,
          BRIGHTNESS_MIN, BRIGHTNESS_MAX, hle]
    | some le =>
        cases hact : le.is_active
        · right
          simp [Brightness.set_brightness, PyVal.isInstInt, PyVal.toInt,
            BRIGHTNESS_MIN, BRIGHTNESS_MAX, hle, hact]
        · left
          simp [Brightness.set_brightness, PyVal.isInstInt, PyVal.toInt,
            BRIGHTNESS_MIN, BRIGHTNESS_MAX, hle, hact]

/-- Helper: reading a canonical/milli pair from a reading holding at most
one member of the pair, with at least one present, yields both values in
the exact ×1000 relation. -/
theorem getItem_pair (raw : EmeterRaw) (c m : String)
    (hcm : milliOf c = some m) (hmm : milliOf m = Option.none)
    (hmc : canonicalOf m = some c)
    (hdisj : lookupRaw raw c = Option.none ∨ lookupRaw raw m = Option.none)
    (hpres : (lookupRaw raw c).isSome ∨ (lookupRaw raw m).isSome) :
    ∃ v mv : Rat, EmeterStatus.getItem raw c = .ok (some v) ∧
      EmeterStatus.getItem raw m = .ok (some mv) ∧ mv = v * 1000 := by
  cases hc : lookupRaw raw c with
  | some v =>
      have hm : lookupRaw raw m = Option.none := by
        rcases hdisj with h | h
        · simp [h] at hc
        · exact h
      refine ⟨v, v * 1000, ?_, ?_, rfl⟩
      · simp [EmeterStatus.getItem, hcm, hc]
      · simp [EmeterStatus.getItem, hmm, hmc, hm, hc]
  | none =>
      cases hm : lookupRaw raw m with
      | some mv =>
          refine ⟨mv / 1000, mv, ?_, ?_, ?_⟩
          · simp [EmeterStatus.getItem, hcm, hc, hm]
          · simp [EmeterStatus.getItem, hmm, hmc, hm]
          · exact (div_mul_cancel₀ mv (by norm_num : (1000 : Rat) ≠ 0)).symm
      | none =>
          rcases hpres with h | h <;> simp [hc, hm] at h

/-- C4: for every status record over a reading holding at most one member
of each unit pair (the spec guarantee), whenever a unit pair has a present
member both reads succeed and the milli value equals the canonical value
times exactly 1000 — the absent member is derived from the present one by
exact multiplication or division by 1000. -/
theorem emeter_milli_identities (raw : EmeterRaw) (hdisj : pairsDisjoint raw) :
    ∀ p ∈ unitPairs,
      ((lookupRaw raw p.1).isSome ∨ (lookupRaw raw p.2).isSome) →
      ∃ v mv : Rat, EmeterStatus.getItem raw p.1 = .ok (some v) ∧
        EmeterStatus.getItem raw p.2 = .ok (some mv) ∧ mv = v * 1000 := by
  intro p hp hpres
  have hd := hdisj p hp
  have hmem : p = ("voltage", "voltage_mv") ∨ p = ("current", "current_ma") ∨
      p = ("power", "power_mw") ∨ p = ("total", "total_wh") := by
    simpa [unitPairs] using hp
  rcases hmem with rfl | rfl | rfl | rfl <;>
    exact getItem_pair raw _ _ (by decide) (by decide) (by decide) hd hpres

/-- Witness for C4: the milli identity for the current pair of the test's
`regular` reading (only `current_ma` present). -/
theorem emeter_milli_identities_witness :
    ∃ v mv : Rat, EmeterStatus.getItem regularRaw "current" = .ok (some v) ∧
      EmeterStatus.getItem regularRaw "current_ma" = .ok (some mv) ∧
      mv = v * 1000 :=
  emeter_milli_identities regularRaw (by decide) ("current", "current_ma")
    (by decide) (Or.inr (by decide))

/-- C5: indexing a status record with a key the schema does not recognize
fails with a key error naming the key, while a recognized key whose value
and paired unit are absent from the raw reading yields the explicit absent
value `None` rather than an error. -/
theorem emeter_unknown_vs_absent (raw : EmeterRaw) (k : String) :
    (recognizedKey k = false →
      EmeterStatus.getItem raw k = .error ("unknown field: " ++ k)) ∧
    (recognizedKey k = true → absentWithPair raw k →
      EmeterStatus.getItem raw k = .ok Option.none) := by
  constructor
  · intro hrec
    cases hm : milliOf k with
    | some m => simp [recognizedKey, hm] at hrec
    | none =>
        cases hc : canonicalOf k with
        | some c => simp [recognizedKey, hc] at hrec
        | none =>
            have hs : ¬ (k = "slot_id") := by
              intro hk
              simp [recognizedKey, hk] at hrec
            simp [EmeterStatus.getItem, hm, hc, hs]
  · intro hrec habs
    obtain ⟨hk, hmil, hcan⟩ := habs
    cases hm : milliOf k with
    | some m =>
        have hmn : lookupRaw raw m = Option.none := hmil m (by simp [hm])
        simp [EmeterStatus.getItem, hm, hk, hmn]
    | none =>
        cases hc : canonicalOf k with
        | some c =>
            have hcn : lookupRaw raw c = Option.none := hcan c (by simp [hc])
            simp [EmeterStatus.getItem, hm, hc, hk, hcn]
        | none =>
            have hs : k = "slot_id" := by
              simpa [recognizedKey, hm, hc] using hrec
            subst hs
            simp [EmeterStatus.getItem, hm, hc, hk]

/-- Witness for C5: the test's records — `invalid_key` raises a key error
on the `regular` reading, and `current` on the reading with no current
key yields `None`. -/
theorem emeter_unknown_vs_absent_witness :
    EmeterStatus.getItem regularRaw "invalid_key"
      = .error ("unknown field: " ++ "invalid_key") ∧
    EmeterStatus.getItem missingCurrentRaw "current" = .ok Option.none :=
  ⟨(emeter_unknown_vs_absent regularRaw "invalid_key").1 (by decide),
   (emeter_unknown_vs_absent missingCurrentRaw "current").2 (by decide)
     (by decide)⟩

/-- C6: a year/month selecting no retained daily entries gives an empty
day→value mapping, and a year selecting no retained monthly entries gives
an empty month→value mapping; neither call fails. -/
theorem stats_empty_when_no_match (dentries : List DayEntry)
    (mentries : List MonthEntry) (y m : Nat) (kwh : Bool)
    (hd : ∀ e ∈ dentries, ¬ (e.year = y ∧ e.month = m))
    (hm : ∀ e ∈ mentries, e.year ≠ y) :
    get_daily_stats dentries y m kwh = [] ∧
    get_monthly_stats mentries y kwh = [] := by
  constructor
  · unfold get_daily_stats
    rw [List.filter_eq_nil_iff.mpr]
    · rfl
    · intro e he
      simpa using hd e he
  · unfold get_monthly_stats
    rw [List.filter_eq_nil_iff.mpr]
    · rfl
    · intro e he
      simpa using hm e he

/-- Witness for C6: `get_daily_stats(year=1900, month=1)` and
`get_monthly_stats(year=1900)` are empty on data retained for 2023. -/
theorem stats_empty_when_no_match_witness :
    get_daily_stats [⟨1, 1, 2023, 8⟩] 1900 1 true = [] ∧
    get_monthly_stats [⟨1, 2023, 8⟩] 1900 true = [] :=
  stats_empty_when_no_match [⟨1, 1, 2023, 8⟩] [⟨1, 2023, 8⟩] 1900 1 true
    (by decide) (by decide)

/-- Helper: scaling each mapped value back by 1000 undoes the kWh
division exactly (rational arithmetic). -/
theorem map_scale_cancel {α : Type} (l : List α) (key : α → Nat)
    (val : α → Rat) :
    l.map (fun e => (key e, val e)) =
      (l.map (fun e => (key e, val e / 1000))).map
        (fun p => (p.1, p.2 * 1000)) := by
  induction l with
  | nil => rfl
  | cons a t ih =>
      simp only [List.map_cons]
      rw [div_mul_cancel₀ (val a) (by norm_num : (1000 : Rat) ≠ 0), ← ih]

/-- C7: for every calendar key in the result, the value with `kwh=false`
equals the value with `kwh=true` times exactly 1000, for both the daily
and the monthly statistics. -/
theorem stats_kwh_scaling (dentries : List DayEntry)
    (mentries : List MonthEntry) (y m : Nat) :
    get_daily_stats dentries y m false =
      (get_daily_stats dentries y m true).map (fun p => (p.1, p.2 * 1000)) ∧
    get_monthly_stats mentries y false =
      (get_monthly_stats mentries y true).map (fun p => (p.1, p.2 * 1000)) := by
  constructor
  · unfold get_daily_stats
    simp only [Bool.false_eq_true, if_false, if_true]
    exact map_scale_cancel _ _ _
  · unfold get_monthly_stats
    simp only [Bool.false_eq_true, if_false, if_true]
    exact map_scale_cancel _ _ _

/-- C8: with the retained list `[⟨1,1,2023,8⟩]` plus an entry of 500 Wh
for the current day, `consumption_today` returns exactly 0.500 kWh
(today's refreshed entry is authoritative); with today's entry missing
from the list it returns the absent value and fabricates nothing. -/
theorem consumption_today_authoritative (today : Date) :
    consumption_today
      [⟨1, 1, 2023, 8⟩, ⟨today.day, today.month, today.year, 500⟩] today
      = some (1 / 2) ∧
    (¬ (today.day = 1 ∧ today.month = 1 ∧ today.year = 2023) →
      consumption_today [⟨1, 1, 2023, 8⟩] today = Option.none) := by
  constructor
  · cases hb1 : (2023 == today.year) <;> cases hb2 : (1 == today.month) <;>
      simp [consumption_today, get_daily_stats, dictGet, List.filter,
        hb1, hb2] <;>
      norm_num
  · intro h
    cases hb1 : (2023 == today.year) <;> cases hb2 : (1 == today.month) <;>
      simp [consumption_today, get_daily_stats, dictGet, List.filter,
        hb1, hb2]
    have hy : today.year = 2023 := (eq_of_beq hb1).symm
    have hmth : today.month = 1 := (eq_of_beq hb2).symm
    have hd : ¬ (1 = today.day) := fun hd => h ⟨hd.symm, hmth, hy⟩
    simp [hd]

/-- Witness for C8: a concrete current day (2025-10-15) with and without
its refreshed entry. -/
theorem consumption_today_authoritative_witness :
    consumption_today [⟨1, 1, 2023, 8⟩, ⟨15, 10, 2025, 500⟩] ⟨15, 10, 2025⟩
      = some (1 / 2) ∧
    consumption_today [⟨1, 1, 2023, 8⟩] ⟨15, 10, 2025⟩ = Option.none :=
  ⟨(consumption_today_authoritative ⟨15, 10, 2025⟩).1,
   (consumption_today_authoritative ⟨15, 10, 2025⟩).2 (by decide)⟩
